import Mathlib

/-!
Verification of the CPIX generator example (`example/cpix_gen.py`) of the
pycpix repository.  The script's own logic (key parsing, conditional option
checks, DRM-system loops, usage-rule loops, the final `exit(0)`) is embedded
directly from the source.  Parts of the `cpix` package that the script calls
but that are not part of the example file (ContentKey construction,
ContentKeyList duplicate handling, the PSSH generators, the preset usage-rule
constructors) are modelled from the specification and marked as such in their
doc comments.  Python standard-library functions used by the script
(`str.split`, `base64.b16decode`, `base64.b64encode`, `base64.b64decode`,
`uuid.UUID`) are embedded with their documented semantics.
-/

/-- Python `str.split(sep)` for a single-character separator, over a list of
characters: contiguous separators yield empty tokens, and the result always
has one more element than the number of separator occurrences. -/
def pySplitCh (c : Char) : List Char → List (List Char)
  | [] => [[]]
  | x :: xs =>
    let r := pySplitCh c xs
    if x = c then [] :: r
    else
      match r with
      | [] => [[x]]
      | h :: t => (x :: h) :: t

/-- Python `s.split(sep)` for a single-character separator. -/
def pySplit (c : Char) (s : String) : List String :=
  (pySplitCh c s.data).map (fun l => ⟨l⟩)

/-- Value of a hexadecimal digit, both cases accepted (as `uuid.UUID` does). -/
def hexVal (c : Char) : Option Nat :=
  if '0' ≤ c ∧ c ≤ '9' then some (c.toNat - 48)
  else if 'A' ≤ c ∧ c ≤ 'F' then some (c.toNat - 55)
  else if 'a' ≤ c ∧ c ≤ 'f' then some (c.toNat - 87)
  else none

/-- Value of an uppercase hexadecimal digit; `base64.b16decode` with the
default `casefold=False` accepts only uppercase digits. -/
def hexValUpper (c : Char) : Option Nat :=
  if '0' ≤ c ∧ c ≤ '9' then some (c.toNat - 48)
  else if 'A' ≤ c ∧ c ≤ 'F' then some (c.toNat - 55)
  else none

/-- Accumulating big-endian value of a list of hex digits. -/
def hexListVal : Nat → List Char → Option Nat
  | acc, [] => some acc
  | acc, c :: cs =>
    match hexVal c with
    | none => none
    | some v => hexListVal (acc * 16 + v) cs

/-- `uuid.UUID(s)`: hyphens are removed, the remaining text must be exactly
32 hexadecimal digits (either case); the value is the 128-bit integer.  The
`urn:uuid:` and brace forms of the constructor are not used by the script and
are omitted. -/
def uuidParse (s : String) : Option Nat :=
  let t := s.data.filter (fun c => c ≠ '-')
  if t.length = 32 then hexListVal 0 t else none

/-- `base64.b16decode` on a list of characters: pairs of uppercase hex digits
to bytes. -/
def b16decodeGo : List Char → Option (List Nat)
  | [] => some []
  | [_] => none
  | a :: b :: rest =>
    match hexValUpper a, hexValUpper b, b16decodeGo rest with
    | some x, some y, some tail => some ((x * 16 + y) :: tail)
    | _, _, _ => none

/-- `base64.b16decode` (default `casefold=False`): uppercase hex to bytes. -/
def b16decode (s : String) : Option (List Nat) :=
  b16decodeGo s.data

/-- Uppercase hexadecimal digit character for a value below 16. -/
def hexCharUpper (n : Nat) : Char :=
  if n < 10 then Char.ofNat (48 + n) else Char.ofNat (55 + n)

/-- `base64.b16encode`: bytes to uppercase hex. -/
def b16encode (bs : List Nat) : String :=
  ⟨(bs.map (fun b => [hexCharUpper (b / 16 % 16), hexCharUpper (b % 16)])).flatten⟩

/-- The base64 alphabet. -/
def b64chars : List Char :=
  "ABCDEFGHIJKLMNOPQRSTUVWXYZabcdefghijklmnopqrstuvwxyz0123456789+/".data

/-- Character for a 6-bit value. -/
def b64char (n : Nat) : Char := b64chars.getD n 'A'

/-- `base64.b64encode`, three input bytes at a time, with `=` padding. -/
def b64encodeGo : List Nat → List Char
  | [] => []
  | [a] => [b64char (a / 4), b64char (a % 4 * 16), '=', '=']
  | [a, b] => [b64char (a / 4), b64char (a % 4 * 16 + b / 16), b64char (b % 16 * 4), '=']
  | a :: b :: c :: rest =>
    b64char (a / 4) :: b64char (a % 4 * 16 + b / 16) ::
      b64char (b % 16 * 4 + c / 64) :: b64char (c % 64) :: b64encodeGo rest

/-- `base64.b64encode`: bytes to base64 text. -/
def b64encode (bs : List Nat) : String := ⟨b64encodeGo bs⟩

/-- Value of a base64 alphabet character. -/
def b64val (c : Char) : Option Nat :=
  if 'A' ≤ c ∧ c ≤ 'Z' then some (c.toNat - 65)
  else if 'a' ≤ c ∧ c ≤ 'z' then some (c.toNat - 71)
  else if '0' ≤ c ∧ c ≤ '9' then some (c.toNat + 4)
  else if c = '+' then some 62
  else if c = '/' then some 63
  else none

/-- `base64.b64decode`, four input characters at a time.  The script only
decodes values it has itself produced with `b64encode`, so the strict form
(no junk characters) is modelled. -/
def b64decodeGo : List Char → Option (List Nat)
  | [] => some []
  | [a, b, '=', '='] =>
    match b64val a, b64val b with
    | some x, some y => some [x * 4 + y / 16]
    | _, _ => none
  | [a, b, c, '='] =>
    match b64val a, b64val b, b64val c with
    | some x, some y, some z => some [x * 4 + y / 16, y % 16 * 16 + z / 4]
    | _, _, _ => none
  | a :: b :: c :: d :: rest =>
    match b64val a, b64val b, b64val c, b64val d, b64decodeGo rest with
    | some x, some y, some z, some w, some tail =>
      some ([x * 4 + y / 16, y % 16 * 16 + z / 4, z % 4 * 64 + w] ++ tail)
    | _, _, _, _, _ => none
  | _ => none

/-- `base64.b64decode`: base64 text to bytes. -/
def b64decode (s : String) : Option (List Nat) :=
  b64decodeGo s.data

/-- Modelled from the spec: `cpix.ContentKey` (cpix package, not under
`src/`).  A content key holds a 128-bit key id, canonically a UUID, and the
content-key material as the base64 text the script stores
(`b64encode(b16decode(cek))`). -/
structure ContentKey where
  kid : Nat
  cek : String
deriving DecidableEq, Repr

/-- Modelled from the spec: `cpix.ContentKey` construction converts the kid
string to a UUID; a string that is not a well-formed hexadecimal UUID is
rejected. -/
def ContentKey.make (kidStr : String) (cekB64 : String) : Except String ContentKey :=
  match uuidParse kidStr with
  | none => .error "badly formed hexadecimal UUID string"
  | some v => .ok ⟨v, cekB64⟩

/-- Modelled from the spec: `cpix.ContentKeyList.append` (cpix package, not
under `src/`).  The spec requires that a document's key-id set has no
duplicates and that a duplicate key id across the batch fails with
`DuplicateKeyId`. -/
def appendKey (acc : List ContentKey) (ck : ContentKey) : Except String (List ContentKey) :=
  if acc.any (fun k => k.kid == ck.kid) then .error "DuplicateKeyId"
  else .ok (acc ++ [ck])

/-- One iteration of the `parse_keys` loop (`cpix_gen.py` lines 86-97): split
the raw spec on `:` into exactly two tokens, check both have 32 characters,
base16-decode the content key, re-encode it as base64 and build the
`ContentKey`. -/
def parseOne (s : String) : Except String ContentKey :=
  match pySplit ':' s with
  | [kid, cek] =>
    if kid.length ≠ 32 then .error "key ID must be 128-bit"
    else if cek.length ≠ 32 then .error "cek must be 128-bit"
    else
      match b16decode cek with
      | none => .error "Non-base16 digit found"
      | some bytes => ContentKey.make kid (b64encode bytes)
  | _ => .error "key must be KEY_ID:CONTENT_KEY (missing :)"

/-- The `parse_keys` loop: parse each spec in order and append it to the
accumulated key list, failing fast on the first error. -/
def goKeys : List String → List ContentKey → Except String (List ContentKey)
  | [], acc => .ok acc
  | s :: rest, acc =>
    match parseOne s with
    | .error e => .error e
    | .ok ck =>
      match appendKey acc ck with
      | .error e => .error e
      | .ok acc2 => goKeys rest acc2

/-- `parse_keys` (`cpix_gen.py` lines 83-98). -/
def parseKeys (keys : List String) : Except String (List ContentKey) :=
  goKeys keys []

/-- A content-matching predicate of a usage rule: audio, video (optional
pixel bounds) or bitrate (optional bitrate bounds). -/
inductive RuleFilter where
  | audio : RuleFilter
  | video (minPixels maxPixels : Option Nat) : RuleFilter
  | bitrate (minBitrate maxBitrate : Option Nat) : RuleFilter
deriving DecidableEq, Repr

/-- A usage rule: a key id and its filters. -/
structure UsageRule where
  kid : Nat
  filters : List RuleFilter
deriving DecidableEq, Repr

/-- A per-key DRM-system entry: key id, DRM system id, base64 PSSH text. -/
structure DRMSystem where
  kid : Nat
  system_id : Nat
  pssh : String
deriving DecidableEq, Repr

/-- The CPIX root aggregate built by the dead code after `exit(0)`
(`cpix_gen.py` lines 333-337). -/
structure CPIX where
  content_keys : List ContentKey
  drm_systems : List DRMSystem
  usage_rules : List UsageRule
deriving DecidableEq, Repr

/-- How a run of `main` ends after argument parsing: an `argparse` error
(`parser.error`, exit status 2), an unhandled Python exception, the bare
`exit(0)` at line 331, or writing a CPIX document (the code after `exit(0)`,
which would be the only way any output is produced). -/
inductive Outcome where
  | parserError (msg : String) : Outcome
  | crash (msg : String) : Outcome
  | exit0 : Outcome
  | wrote (doc : CPIX) : Outcome
deriving DecidableEq, Repr

/-- The parsed command-line arguments of `cpix_gen.py` (lines 102-219).
`argparse` leaves list-valued options as `None` when absent; `None` and the
empty list behave identically under the script's truthiness tests, so both
are a single empty list here. -/
structure Args where
  keys : List String
  widevine : Bool
  widevine_content_id : Option String
  widevine_provider : Option String
  widevine_pssh_version : Nat
  playready : Bool
  playready_la_url : Option String
  playready_algorithm : String
  playready_pssh_version : Nat
  custom_usage_rules : List (String × String)
  preset_usage_rules : List (String × String)
  stdout : Bool
  output_filename : Option String

/-- The Widevine DRM system id (a well-known constant of the cpix package). -/
def WIDEVINE_SYSTEM_ID : Nat := 0xedef8ba979d64acea3c827dcd51d21ed

/-- The PlayReady DRM system id (a well-known constant of the cpix package). -/
def PLAYREADY_SYSTEM_ID : Nat := 0x9a04f07998404286ab92e65be0885f95

/-- Big-endian 4-byte encoding. -/
def uint32BE (n : Nat) : List Nat :=
  [n / 16777216 % 256, n / 65536 % 256, n / 256 % 256, n % 256]

/-- The 16 bytes of a 128-bit UUID value, big-endian. -/
def uuidBytes (n : Nat) : List Nat :=
  (List.range 16).map (fun i => n / 256 ^ (15 - i) % 256)

/-- Little-endian base-128 varint. -/
def varint (n : Nat) : List Nat :=
  if n < 128 then [n] else (n % 128 + 128) :: varint (n / 128)
termination_by n
decreasing_by exact Nat.div_lt_self (by omega) (by omega)

/-- One length-delimited field of the Widevine inner record:
tag byte, varint length, payload. -/
def pbField (tag : Nat) (payload : List Nat) : List Nat :=
  tag :: (varint payload.length ++ payload)

/-- ASCII bytes of a string. -/
def asciiBytes (s : String) : List Nat := s.data.map Char.toNat

/-- The outer PSSH box: 32-bit big-endian total size, the ASCII bytes
`pssh`, a version byte, three zero flag bytes, the 16-byte system id, for
version 1 and above a big-endian key-id count followed by the 16-byte key
ids, then the 32-bit big-endian data size and the data. -/
def psshBox (version : Nat) (systemId : Nat) (keyIds : List Nat) (data : List Nat) : List Nat :=
  let body :=
    [112, 115, 115, 104] ++ [version % 256, 0, 0, 0] ++ uuidBytes systemId ++
    (if 1 ≤ version then uint32BE keyIds.length ++ (keyIds.map uuidBytes).flatten else []) ++
    uint32BE data.length ++ data
  uint32BE (body.length + 4) ++ body

/-- Modelled from the spec: `cpix.drm.widevine.generate_pssh` (cpix package,
not under `src/`).  The inner record carries, in ascending tag order, the
fixed AES-CTR algorithm identifier, one field per 16-byte key id, and the
optional content id and provider; it is wrapped in the PSSH box with the
Widevine system id.  The `NoKeysForSystem` edge case for an empty key list
is not modelled; no claim exercises it. -/
def widevineGeneratePssh (keyIds : List Nat) (provider contentId : Option String)
    (version : Nat) : List Nat :=
  let inner :=
    pbField 1 [1] ++
    (keyIds.map (fun k => pbField 2 (uuidBytes k))).flatten ++
    (match contentId with
     | some c => pbField 3 (asciiBytes c)
     | none => []) ++
    (match provider with
     | some p => pbField 4 (asciiBytes p)
     | none => [])
  psshBox version WIDEVINE_SYSTEM_ID keyIds inner

/-- PlayReady's mixed-endian GUID byte order: the first three groups of the
big-endian UUID bytes are byte-swapped, the rest kept. -/
def guidBytes (n : Nat) : List Nat :=
  match uuidBytes n with
  | [b0, b1, b2, b3, b4, b5, b6, b7, b8, b9, b10, b11, b12, b13, b14, b15] =>
    [b3, b2, b1, b0, b5, b4, b7, b6, b8, b9, b10, b11, b12, b13, b14, b15]
  | l => l

/-- UTF-16 little-endian bytes of a string with a leading byte-order mark. -/
def utf16leBytes (s : String) : List Nat :=
  [255, 254] ++ (s.data.map (fun c => [c.toNat % 256, c.toNat / 256 % 256])).flatten

/-- Modelled from the spec: the per-key license-header fragment of
`cpix.drm.playready.generate_pssh` carries the algorithm identifier, the
key id in PlayReady's byte-swapped GUID order, the base64 content key and
the license-acquisition URL.  The exact WRMHEADER schema is abbreviated;
the spec-relevant structure is kept. -/
def playreadyKeyFragment (kid : Nat) (keyHex : String) (url : String)
    (algorithm : String) : String :=
  "<DATA><PROTECTINFO><ALGID>" ++ algorithm ++ "</ALGID></PROTECTINFO><KID>" ++
    b64encode (guidBytes kid) ++ "</KID><KEY>" ++
    b64encode ((b16decode keyHex).getD []) ++ "</KEY><LA_URL>" ++ url ++
    "</LA_URL></DATA>"

/-- Modelled from the spec: `cpix.drm.playready.generate_pssh` (cpix
package, not under `src/`).  Per-key fragments are wrapped in a versioned
WRMHEADER document, serialized as UTF-16 little-endian bytes with a leading
byte-order mark, and that byte sequence becomes the inner payload of the
PSSH box with the PlayReady system id. -/
def playreadyGeneratePssh (keys : List (Nat × String)) (url : String)
    (algorithm : String) (version : Nat) : List Nat :=
  let xml := "<WRMHEADER>" ++
    String.join (keys.map (fun kv => playreadyKeyFragment kv.1 kv.2 url algorithm)) ++
    "</WRMHEADER>"
  psshBox version PLAYREADY_SYSTEM_ID (keys.map (fun kv => kv.1)) (utf16leBytes xml)

/-- The unused module-level constant of `cpix_gen.py` lines 79-80, kept with
its typo `videouhd2`; nothing in `main` reads it. -/
def PRESET_USAGE_RULES : List String :=
  ["audio", "video", "video_sd", "video_hd", "video_uhd1", "videouhd2"]

/-- Modelled from the spec: `cpix.AudioUsageRule` — one audio filter. -/
def AudioUsageRule (kid : Nat) : UsageRule := ⟨kid, [RuleFilter.audio]⟩

/-- Modelled from the spec: `cpix.VideoUsageRule` — one unbounded video
filter. -/
def VideoUsageRule (kid : Nat) : UsageRule := ⟨kid, [RuleFilter.video none none]⟩

/-- Modelled from the spec: `cpix.SDVideoUsageRule` — video with
`maxPixels = 442368`. -/
def SDVideoUsageRule (kid : Nat) : UsageRule :=
  ⟨kid, [RuleFilter.video none (some 442368)]⟩

/-- Modelled from the spec: `cpix.HDVideoUsageRule` — video with
`minPixels = 442369` and `maxPixels = 2073600`. -/
def HDVideoUsageRule (kid : Nat) : UsageRule :=
  ⟨kid, [RuleFilter.video (some 442369) (some 2073600)]⟩

/-- Modelled from the spec: `cpix.UHD1VideoUsageRule` — video with
`minPixels = 2073601` and `maxPixels = 8847360`. -/
def UHD1VideoUsageRule (kid : Nat) : UsageRule :=
  ⟨kid, [RuleFilter.video (some 2073601) (some 8847360)]⟩

/-- Modelled from the spec: `cpix.UHD2VideoUsageRule` — video with
`minPixels = 8847361`. -/
def UHD2VideoUsageRule (kid : Nat) : UsageRule :=
  ⟨kid, [RuleFilter.video (some 8847361) none]⟩

/-- The preset-name dispatch of `cpix_gen.py` lines 295-306: the six valid
names in source order, anything else yields no rule. -/
def presetRule (pname : String) (kid : Nat) : Option UsageRule :=
  match pname with
  | "audio" => some (AudioUsageRule kid)
  | "video" => some (VideoUsageRule kid)
  | "video_sd" => some (SDVideoUsageRule kid)
  | "video_hd" => some (HDVideoUsageRule kid)
  | "video_uhd1" => some (UHD1VideoUsageRule kid)
  | "video_uhd2" => some (UHD2VideoUsageRule kid)
  | _ => none

/-- The preset usage-rule loop of `main` (`cpix_gen.py` lines 286-309): for
each `(kid, preset)` pair, the kid must parse as a UUID and be a key id of a
parsed key, else `parser.error`; a valid preset name appends its rule, an
unknown name is a `parser.error` listing the valid names. -/
def processPresetRules (keys : List ContentKey) :
    List (String × String) → List UsageRule → Except Outcome (List UsageRule)
  | [], acc => .ok acc
  | (kidStr, pname) :: rest, acc =>
    match uuidParse kidStr with
    | none => .error (.parserError "Invalid key ID in preset usage rule.")
    | some kid =>
      if kid ∈ keys.map (fun key => key.kid) then
        match presetRule pname kid with
        | some r => processPresetRules keys rest (acc ++ [r])
        | none => .error (.parserError
            "Invalid preset rule. Allowed values are: audio, video, video_sd, video_hd, video_uhd1, video_uhd2")
      else .error (.parserError "Invalid key ID in preset usage rule.")

/-- The custom-filter loop of `main` (`cpix_gen.py` lines 321-328): each
comma-separated token is split on `:` and the parameter part on `=`, both by
a two-variable unpacking that raises an unhandled `ValueError` when the
split does not give exactly two parts; for the token type `audio` the code
evaluates `parsed_filters["audio"]` on the never-extended dictionary, an
unhandled `KeyError`; every other token type falls through without effect. -/
def processFilters (parsedFilters : List (String × Unit)) :
    List String → Except Outcome (List (String × Unit))
  | [] => .ok parsedFilters
  | tok :: rest =>
    match pySplit ':' tok with
    | [ft, fparam] =>
      match pySplit '=' fparam with
      | [_fpt, _fpv] =>
        if ft = "audio" then
          match parsedFilters.lookup "audio" with
          | none => .error (.crash "KeyError: audio")
          | some _ => processFilters parsedFilters rest
        else processFilters parsedFilters rest
      | [_] => .error (.crash "ValueError: not enough values to unpack (expected 2, got 1)")
      | _ => .error (.crash "ValueError: too many values to unpack (expected 2)")
    | [_] => .error (.crash "ValueError: not enough values to unpack (expected 2, got 1)")
    | _ => .error (.crash "ValueError: too many values to unpack (expected 2)")

/-- The custom usage-rule loop of `main` (`cpix_gen.py` lines 312-328): the
same kid validation as for presets, then the filter loop; the parsed
filters are discarded and no usage rule is ever appended — the branch is
unfinished in the source. -/
def processCustomRules (keys : List ContentKey) :
    List (String × String) → List UsageRule → Except Outcome (List UsageRule)
  | [], acc => .ok acc
  | (kidStr, ruleStr) :: rest, acc =>
    match uuidParse kidStr with
    | none => .error (.parserError "Invalid key ID in custom usage rule.")
    | some kid =>
      if kid ∈ keys.map (fun key => key.kid) then
        match processFilters [] (pySplit ',' ruleStr) with
        | .error o => .error o
        | .ok _parsedFilters => processCustomRules keys rest acc
      else .error (.parserError "Invalid key ID in custom usage rule.")

/-- The DRM-system section of `main` (`cpix_gen.py` lines 245-280): when
Widevine is enabled, one PSSH is generated over the full key-id list and one
entry per key is appended carrying its base64 encoding; then the same for
PlayReady, whose generator receives each key id with the content key
re-encoded from base64 back to hex. -/
def buildDrmSystems (args : Args) (keys : List ContentKey) : List DRMSystem :=
  (if args.widevine then
    (fun pssh => keys.map (fun key => DRMSystem.mk key.kid WIDEVINE_SYSTEM_ID (b64encode pssh)))
      (widevineGeneratePssh (keys.map (fun key => key.kid)) args.widevine_provider
        args.widevine_content_id args.widevine_pssh_version)
  else []) ++
  (if args.playready then
    (fun pssh => keys.map (fun key => DRMSystem.mk key.kid PLAYREADY_SYSTEM_ID (b64encode pssh)))
      (playreadyGeneratePssh
        (keys.map (fun key => (key.kid, b16encode ((b64decode key.cek).getD []))))
        (args.playready_la_url.getD "") args.playready_algorithm
        args.playready_pssh_version)
  else [])

/-- `main` after successful key parsing (`cpix_gen.py` lines 244-331): the
DRM-system list is built and stays in scope but is never consumed, the
preset and custom usage-rule loops run, and then the unconditional
`exit(0)` at line 331 ends the process.  The document construction and
output code at lines 333-345 sits after `exit(0)`. -/
def mainAfterKeys (args : Args) (keys : List ContentKey)
    (_drm_systems : List DRMSystem) : Outcome :=
  match processPresetRules keys args.preset_usage_rules [] with
  | .error o => o
  | .ok rules1 =>
    match processCustomRules keys args.custom_usage_rules rules1 with
    | .error o => o
    | .ok _usage_rules => Outcome.exit0

/-- `main` from the conditionally-required-option check onward
(`cpix_gen.py` lines 231-345): the PlayReady URL check, key parsing with
`parser.error` on failure, then the rest of the run. -/
def mainRun (args : Args) : Outcome :=
  if args.playready && args.playready_la_url.isNone then
    .parserError "When setting --playready must also set --playready.la_url"
  else
    match parseKeys args.keys with
    | .error e => .parserError e
    | .ok keys => mainAfterKeys args keys (buildDrmSystems args keys)


/-! ### Helper lemmas -/

/-- A Python split never yields an empty list of tokens. -/
lemma pySplitCh_ne_nil (c : Char) (l : List Char) : pySplitCh c l ≠ [] := by
  induction l with
  | nil => simp [pySplitCh]
  | cons x xs ih =>
    simp only [pySplitCh]
    split
    · simp
    · split
      · simp
      · simp

/-- A Python split has one more token than the number of separator
occurrences. -/
lemma pySplitCh_length (c : Char) (l : List Char) :
    (pySplitCh c l).length = l.count c + 1 := by
  induction l with
  | nil => simp [pySplitCh]
  | cons x xs ih =>
    simp only [pySplitCh]
    by_cases hx : x = c
    · subst hx
      simp [List.count_cons, ih]
    · simp only [if_neg hx]
      rcases hr : pySplitCh c xs with _ | ⟨h, t⟩
      · exact absurd hr (pySplitCh_ne_nil c xs)
      · rw [hr] at ih
        rcases eq_or_ne c x with hcx | hcx
        · exact absurd hcx.symm hx
        · simp only [List.length_cons] at ih ⊢
          rw [List.count_cons]
          simp [hcx, Ne.symm hcx]
          omega

/-- The number of tokens of `pySplit` in terms of separator occurrences. -/
lemma pySplit_length (c : Char) (s : String) :
    (pySplit c s).length = s.data.count c + 1 := by
  simp [pySplit, pySplitCh_length]

/-- A successful `appendKey` appends the key and certifies its key id was
not already present. -/
lemma appendKey_ok {acc : List ContentKey} {ck : ContentKey} {out : List ContentKey}
    (h : appendKey acc ck = .ok out) :
    out = acc ++ [ck] ∧ ck.kid ∉ acc.map (fun k => k.kid) := by
  unfold appendKey at h
  split at h
  · cases h
  · next hcond =>
    refine ⟨(Except.ok.inj h).symm, ?_⟩
    intro hmem
    apply hcond
    rw [List.any_eq_true]
    obtain ⟨k, hk, hkid⟩ := List.mem_map.mp hmem
    exact ⟨k, hk, by simp [hkid]⟩

/-- A successful run of the `parse_keys` loop yields one key per raw spec. -/
lemma goKeys_ok_length :
    ∀ (ks : List String) (acc out : List ContentKey),
      goKeys ks acc = .ok out → out.length = acc.length + ks.length := by
  intro ks
  induction ks with
  | nil =>
    intro acc out h
    simp only [goKeys] at h
    cases h
    simp
  | cons s rest ih =>
    intro acc out h
    simp only [goKeys] at h
    split at h
    · cases h
    · split at h
      · cases h
      · next acc2 happ =>
        obtain ⟨rfl, -⟩ := appendKey_ok happ
        have := ih _ _ h
        simp only [List.length_append, List.length_cons, List.length_nil] at this ⊢
        omega

/-- A successful run of the `parse_keys` loop keeps the key-id list
duplicate-free. -/
lemma goKeys_ok_nodup :
    ∀ (ks : List String) (acc out : List ContentKey),
      (acc.map (fun k => k.kid)).Nodup → goKeys ks acc = .ok out →
      (out.map (fun k => k.kid)).Nodup := by
  intro ks
  induction ks with
  | nil =>
    intro acc out hnd h
    simp only [goKeys] at h
    cases h
    exact hnd
  | cons s rest ih =>
    intro acc out hnd h
    simp only [goKeys] at h
    split at h
    · cases h
    · split at h
      · cases h
      · next ck _ acc2 happ =>
        obtain ⟨rfl, hnotmem⟩ := appendKey_ok happ
        refine ih _ _ ?_ h
        rw [List.map_append]
        rw [List.nodup_append]
        refine ⟨hnd, by simp, ?_⟩
        intro a ha hb
        simp only [List.map_cons, List.map_nil, List.mem_singleton] at hb
        subst hb
        exact hnotmem ha

/-- The `parse_keys` loop fails fast: an error on a prefix is the error of
the whole batch. -/
lemma goKeys_error_append :
    ∀ (ks ks2 : List String) (acc : List ContentKey) (e : String),
      goKeys ks acc = .error e → goKeys (ks ++ ks2) acc = .error e := by
  intro ks
  induction ks with
  | nil =>
    intro ks2 acc e h
    simp [goKeys] at h
  | cons s rest ih =>
    intro ks2 acc e h
    simp only [goKeys, List.cons_append] at h ⊢
    split at h
    · exact h
    · split at h
      · exact h
      · exact ih ks2 _ e h

/-- Every error of the preset usage-rule loop is a `parser.error`. -/
lemma processPresetRules_error :
    ∀ (rules : List (String × String)) (keys : List ContentKey)
      (acc : List UsageRule) (o : Outcome),
      processPresetRules keys rules acc = .error o → ∃ m, o = Outcome.parserError m := by
  intro rules
  induction rules with
  | nil =>
    intro keys acc o h
    simp [processPresetRules] at h
  | cons r rest ih =>
    intro keys acc o h
    obtain ⟨kidStr, pname⟩ := r
    simp only [processPresetRules] at h
    split at h
    · exact ⟨_, (Except.error.inj h).symm⟩
    · split at h
      · split at h
        · exact ih _ _ _ h
        · exact ⟨_, (Except.error.inj h).symm⟩
      · exact ⟨_, (Except.error.inj h).symm⟩

/-- Every error of the custom-filter loop is an unhandled exception. -/
lemma processFilters_error :
    ∀ (toks : List String) (pf : List (String × Unit)) (o : Outcome),
      processFilters pf toks = .error o → ∃ m, o = Outcome.crash m := by
  intro toks
  induction toks with
  | nil =>
    intro pf o h
    simp [processFilters] at h
  | cons tok rest ih =>
    intro pf o h
    simp only [processFilters] at h
    split at h
    · split at h
      · split at h
        · split at h
          · exact ⟨_, (Except.error.inj h).symm⟩
          · exact ih _ _ h
        · exact ih _ _ h
      · exact ⟨_, (Except.error.inj h).symm⟩
      · exact ⟨_, (Except.error.inj h).symm⟩
    · exact ⟨_, (Except.error.inj h).symm⟩
    · exact ⟨_, (Except.error.inj h).symm⟩

/-- Every error of the custom usage-rule loop is a `parser.error` or an
unhandled exception. -/
lemma processCustomRules_error :
    ∀ (rules : List (String × String)) (keys : List ContentKey)
      (acc : List UsageRule) (o : Outcome),
      processCustomRules keys rules acc = .error o →
      (∃ m, o = Outcome.parserError m) ∨ (∃ m, o = Outcome.crash m) := by
  intro rules
  induction rules with
  | nil =>
    intro keys acc o h
    simp [processCustomRules] at h
  | cons r rest ih =>
    intro keys acc o h
    obtain ⟨kidStr, ruleStr⟩ := r
    simp only [processCustomRules] at h
    split at h
    · exact Or.inl ⟨_, (Except.error.inj h).symm⟩
    · split at h
      · split at h
        · next heq =>
          cases h
          exact Or.inr (processFilters_error _ _ _ heq)
        · exact ih _ _ _ h
      · exact Or.inl ⟨_, (Except.error.inj h).symm⟩

/-- A name outside the six presets yields no preset rule. -/
lemma presetRule_eq_none (p : String) (kid : Nat)
    (h : p ∉ (["audio", "video", "video_sd", "video_hd", "video_uhd1",
      "video_uhd2"] : List String)) : presetRule p kid = none := by
  unfold presetRule
  split <;> simp_all

/-- A custom-filter loop over video and bitrate tokens of the shape
`type:param=value` leaves the filter dictionary untouched. -/
lemma processFilters_skips :
    ∀ (toks : List String) (pf : List (String × Unit)),
      (∀ tok ∈ toks, ∃ ft fp fpt fpv, pySplit ':' tok = [ft, fp] ∧
        pySplit '=' fp = [fpt, fpv] ∧ ft ≠ "audio") →
      processFilters pf toks = .ok pf := by
  intro toks
  induction toks with
  | nil =>
    intro pf _
    simp [processFilters]
  | cons tok rest ih =>
    intro pf hall
    obtain ⟨ft, fp, fpt, fpv, hsp, hse, hne⟩ := hall tok (by simp)
    simp only [processFilters, hsp, hse]
    rw [if_neg hne]
    exact ih pf (fun t ht => hall t (by simp [ht]))

/-! ### Claim theorems -/

/-- C2: on every execution path, `main` as embedded in `mainRun` ends in a
`parser.error`, an unhandled exception, or the unconditional `exit(0)` at
line 331; it never reaches the document assembly, pretty-printing and
writing code at lines 333-345, so no CPIX output is ever produced. -/
theorem c2_exit_before_document (args : Args) :
    ((∃ m, mainRun args = Outcome.parserError m) ∨
      (∃ m, mainRun args = Outcome.crash m) ∨ mainRun args = Outcome.exit0) ∧
    ∀ doc : CPIX, mainRun args ≠ Outcome.wrote doc := by
  have key : (∃ m, mainRun args = Outcome.parserError m) ∨
      (∃ m, mainRun args = Outcome.crash m) ∨ mainRun args = Outcome.exit0 := by
    unfold mainRun
    split
    · exact Or.inl ⟨_, rfl⟩
    · split
      · exact Or.inl ⟨_, rfl⟩
      · unfold mainAfterKeys
        split
        · next o heq =>
          obtain ⟨m, rfl⟩ := processPresetRules_error _ _ _ _ heq
          exact Or.inl ⟨m, rfl⟩
        · split
          · next o heq =>
            rcases processCustomRules_error _ _ _ _ heq with ⟨m, rfl⟩ | ⟨m, rfl⟩
            · exact Or.inl ⟨m, rfl⟩
            · exact Or.inr (Or.inl ⟨m, rfl⟩)
          · exact Or.inr (Or.inr rfl)
  refine ⟨key, ?_⟩
  intro doc hw
  rcases key with ⟨m, h⟩ | ⟨m, h⟩ | h <;> rw [h] at hw <;> cases hw

/-- C2 witness: a concrete run that reaches `exit(0)` and writes nothing. -/
theorem c2_exit_before_document_witness :
    ((∃ m, mainRun ⟨[], false, none, none, 1, false, none, "AESCTR", 1, [], [], true, none⟩ =
        Outcome.parserError m) ∨
      (∃ m, mainRun ⟨[], false, none, none, 1, false, none, "AESCTR", 1, [], [], true, none⟩ =
        Outcome.crash m) ∨
      mainRun ⟨[], false, none, none, 1, false, none, "AESCTR", 1, [], [], true, none⟩ =
        Outcome.exit0) ∧
    mainRun ⟨[], false, none, none, 1, false, none, "AESCTR", 1, [], [], true, none⟩ ≠
      Outcome.wrote ⟨[], [], []⟩ :=
  ⟨(c2_exit_before_document _).1, (c2_exit_before_document _).2 ⟨[], [], []⟩⟩

/-- C3: batch parsing yields one key per raw spec on success with pairwise
distinct key ids, an error on a prefix is the error of the whole batch
(first error wins), and feeding the same spec twice fails with
`DuplicateKeyId`. -/
theorem c3_batch_parsing (ks ks2 : List String) (s : String)
    (out : List ContentKey) (k : ContentKey) :
    (parseKeys ks = .ok out →
      out.length = ks.length ∧ (out.map (fun key => key.kid)).Nodup) ∧
    (∀ e, parseKeys ks = .error e → parseKeys (ks ++ ks2) = .error e) ∧
    (parseKeys [s] = .ok [k] → parseKeys [s, s] = .error "DuplicateKeyId") := by
  refine ⟨?_, ?_, ?_⟩
  · intro h
    refine ⟨?_, goKeys_ok_nodup ks [] out (by simp) h⟩
    have := goKeys_ok_length ks [] out h
    simpa using this
  · intro e h
    exact goKeys_error_append ks ks2 [] e h
  · intro h
    rcases hps : parseOne s with e | ck
    · simp only [parseKeys, goKeys, hps] at h
      exact Except.noConfusion h
    · simp only [parseKeys, goKeys, hps] at h
      have happ : appendKey [] ck = .ok [ck] := rfl
      rw [happ] at h
      simp only [goKeys, Except.ok.injEq, List.cons.injEq, and_true] at h
      subst h
      have hdup : appendKey [ck] ck = .error "DuplicateKeyId" := by
        simp [appendKey]
      simp [parseKeys, goKeys, hps, happ, hdup]

/-- C3 witness: a concrete successful batch and concrete failures. -/
theorem c3_batch_parsing_witness :
    (([⟨1, "AAAAAAAAAAAAAAAAAAAAAA=="⟩] : List ContentKey).length =
        (["00000000000000000000000000000001:00000000000000000000000000000000"] :
          List String).length ∧
      (([⟨1, "AAAAAAAAAAAAAAAAAAAAAA=="⟩] : List ContentKey).map
        (fun key => key.kid)).Nodup) ∧
    parseKeys (["nocolon"] ++ ["whatever"]) =
      .error "key must be KEY_ID:CONTENT_KEY (missing :)" ∧
    parseKeys ["00000000000000000000000000000001:00000000000000000000000000000000",
      "00000000000000000000000000000001:00000000000000000000000000000000"] =
      .error "DuplicateKeyId" :=
  ⟨(c3_batch_parsing
      ["00000000000000000000000000000001:00000000000000000000000000000000"] [] ""
      [⟨1, "AAAAAAAAAAAAAAAAAAAAAA=="⟩] ⟨1, "AAAAAAAAAAAAAAAAAAAAAA=="⟩).1 rfl,
   (c3_batch_parsing ["nocolon"] ["whatever"] "" [] ⟨0, ""⟩).2.1 _ rfl,
   (c3_batch_parsing
      ["00000000000000000000000000000001:00000000000000000000000000000000"] []
      "00000000000000000000000000000001:00000000000000000000000000000000"
      [⟨1, "AAAAAAAAAAAAAAAAAAAAAA=="⟩] ⟨1, "AAAAAAAAAAAAAAAAAAAAAA=="⟩).2.2 rfl⟩

/-- C5 counterexample: the spec whose content-key token has the right length
but is not hexadecimal fails with the base16-decoding error, not with either
of the two length errors that distinguish key id from content key, so a
token that does not decode as 32-character hex does not generally fail with
the `InvalidKeyLength`-style errors. -/
theorem c5_counterexample :
    parseKeys ["AAAAAAAAAAAAAAAAAAAAAAAAAAAAAAAA:GGGGGGGGGGGGGGGGGGGGGGGGGGGGGGGG"] =
      .error "Non-base16 digit found" ∧
    "Non-base16 digit found" ≠ "key ID must be 128-bit" ∧
    "Non-base16 digit found" ≠ "cek must be 128-bit" :=
  ⟨rfl, by decide, by decide⟩

/-- C5 (amended): the two colon-separated tokens are checked for length 32
only; a wrong-length key id fails with `key ID must be 128-bit` and a
wrong-length content key with `cek must be 128-bit`, the two errors
distinguishing which token was at fault.  Hexadecimal validity is checked
separately: only the content key is base16-decoded in `parse_keys`, failing
with a decode error that names neither token. -/
theorem c5_invalid_key_length (s kid cek : String)
    (hsplit : pySplit ':' s = [kid, cek]) :
    (kid.length ≠ 32 → parseKeys [s] = .error "key ID must be 128-bit") ∧
    (kid.length = 32 → cek.length ≠ 32 → parseKeys [s] = .error "cek must be 128-bit") := by
  constructor
  · intro hk
    have hone : parseOne s = .error "key ID must be 128-bit" := by
      unfold parseOne
      rw [hsplit]
      simp [hk]
    simp [parseKeys, goKeys, hone]
  · intro hk hc
    have hone : parseOne s = .error "cek must be 128-bit" := by
      unfold parseOne
      rw [hsplit]
      simp [hk, hc]
    simp [parseKeys, goKeys, hone]

/-- C5 witness: concrete wrong-length tokens produce the two distinguishing
errors. -/
theorem c5_invalid_key_length_witness :
    parseKeys ["AB:CD"] = .error "key ID must be 128-bit" ∧
    parseKeys ["AAAAAAAAAAAAAAAAAAAAAAAAAAAAAAAA:CD"] = .error "cek must be 128-bit" :=
  ⟨(c5_invalid_key_length "AB:CD" "AB" "CD" rfl).1 (by decide),
   (c5_invalid_key_length "AAAAAAAAAAAAAAAAAAAAAAAAAAAAAAAA:CD"
      "AAAAAAAAAAAAAAAAAAAAAAAAAAAAAAAA" "CD" rfl).2 rfl (by decide)⟩

/-- C6: when PlayReady is enabled and no license-acquisition URL is given,
`main` stops with the `parser.error` for the missing option before any DRM
generation; it never proceeds with an empty URL. -/
theorem c6_playready_requires_la_url (args : Args)
    (hp : args.playready = true) (hu : args.playready_la_url = none) :
    mainRun args = Outcome.parserError
      "When setting --playready must also set --playready.la_url" := by
  unfold mainRun
  rw [hp, hu]
  simp

/-- C6 witness: a concrete invocation with PlayReady enabled and no URL. -/
theorem c6_playready_requires_la_url_witness :
    (⟨[], false, none, none, 1, true, none, "AESCTR", 1, [], [], true, none⟩ :
      Args).playready = true ∧
    (⟨[], false, none, none, 1, true, none, "AESCTR", 1, [], [], true, none⟩ :
      Args).playready_la_url = none ∧
    mainRun ⟨[], false, none, none, 1, true, none, "AESCTR", 1, [], [], true, none⟩ =
      Outcome.parserError "When setting --playready must also set --playready.la_url" :=
  ⟨rfl, rfl, c6_playready_requires_la_url _ rfl rfl⟩

/-- C9: a raw key spec that does not split into exactly two colon-separated
tokens (no colon, or more than one colon, since the token count is the colon
count plus one) fails with the malformed-spec error, and the batch returns
no partial key. -/
theorem c9_malformed_key_spec (s : String) (rest : List String)
    (h : (pySplit ':' s).length ≠ 2) :
    parseKeys (s :: rest) = .error "key must be KEY_ID:CONTENT_KEY (missing :)" ∧
    (pySplit ':' s).length = s.data.count ':' + 1 := by
  constructor
  · have hone : parseOne s = .error "key must be KEY_ID:CONTENT_KEY (missing :)" := by
      unfold parseOne
      rcases hl : pySplit ':' s with _ | ⟨a, _ | ⟨b, _ | ⟨c, t⟩⟩⟩
      · rfl
      · rfl
      · rw [hl] at h
        simp at h
      · rfl
    simp [parseKeys, goKeys, hone]
  · exact pySplit_length ':' s

/-- C9 witness: a colon-free spec and a two-colon spec both fail. -/
theorem c9_malformed_key_spec_witness :
    parseKeys ["deadbeef"] = .error "key must be KEY_ID:CONTENT_KEY (missing :)" ∧
    parseKeys ["a:b:c"] = .error "key must be KEY_ID:CONTENT_KEY (missing :)" :=
  ⟨(c9_malformed_key_spec "deadbeef" [] (by decide)).1,
   (c9_malformed_key_spec "a:b:c" [] (by decide)).1⟩

/-- C7: a usage rule, preset or custom, whose key id is not among the parsed
keys stops the run with the respective `parser.error` for an invalid key id;
no rule is built for the unknown key id. -/
theorem c7_unknown_key_reference (keys : List ContentKey)
    (kidStr pname ruleStr : String) (kid : Nat)
    (rest rest2 : List (String × String)) (acc acc2 : List UsageRule)
    (hparse : uuidParse kidStr = some kid)
    (hmem : kid ∉ keys.map (fun key => key.kid)) :
    processPresetRules keys ((kidStr, pname) :: rest) acc =
      .error (.parserError "Invalid key ID in preset usage rule.") ∧
    processCustomRules keys ((kidStr, ruleStr) :: rest2) acc2 =
      .error (.parserError "Invalid key ID in custom usage rule.") := by
  constructor
  · simp only [processPresetRules, hparse]
    rw [if_neg hmem]
  · simp only [processCustomRules, hparse]
    rw [if_neg hmem]

/-- C7 witness: a key id absent from a one-key document is rejected by both
rule builders. -/
theorem c7_unknown_key_reference_witness :
    processPresetRules [⟨1, "c"⟩] [("00000000000000000000000000000002", "video_hd")] [] =
      .error (.parserError "Invalid key ID in preset usage rule.") ∧
    processCustomRules [⟨1, "c"⟩] [("00000000000000000000000000000002", "audio")] [] =
      .error (.parserError "Invalid key ID in custom usage rule.") :=
  c7_unknown_key_reference [⟨1, "c"⟩] "00000000000000000000000000000002"
    "video_hd" "audio" 2 [] [] [] [] rfl (by decide)

/-- C8: for a known key id, a preset name outside the six valid ones fails
with the `parser.error` that lists the valid names, and each of the six
valid names appends its corresponding usage rule. -/
theorem c8_preset_dispatch (keys : List ContentKey) (kidStr : String) (kid : Nat)
    (rest : List (String × String)) (acc : List UsageRule)
    (hparse : uuidParse kidStr = some kid)
    (hmem : kid ∈ keys.map (fun key => key.kid)) :
    (∀ p : String,
      p ∉ (["audio", "video", "video_sd", "video_hd", "video_uhd1",
        "video_uhd2"] : List String) →
      processPresetRules keys ((kidStr, p) :: rest) acc =
        .error (.parserError
          "Invalid preset rule. Allowed values are: audio, video, video_sd, video_hd, video_uhd1, video_uhd2")) ∧
    processPresetRules keys ((kidStr, "audio") :: rest) acc =
      processPresetRules keys rest (acc ++ [AudioUsageRule kid]) ∧
    processPresetRules keys ((kidStr, "video") :: rest) acc =
      processPresetRules keys rest (acc ++ [VideoUsageRule kid]) ∧
    processPresetRules keys ((kidStr, "video_sd") :: rest) acc =
      processPresetRules keys rest (acc ++ [SDVideoUsageRule kid]) ∧
    processPresetRules keys ((kidStr, "video_hd") :: rest) acc =
      processPresetRules keys rest (acc ++ [HDVideoUsageRule kid]) ∧
    processPresetRules keys ((kidStr, "video_uhd1") :: rest) acc =
      processPresetRules keys rest (acc ++ [UHD1VideoUsageRule kid]) ∧
    processPresetRules keys ((kidStr, "video_uhd2") :: rest) acc =
      processPresetRules keys rest (acc ++ [UHD2VideoUsageRule kid]) := by
  refine ⟨?_, ?_, ?_, ?_, ?_, ?_, ?_⟩
  · intro p hp
    simp only [processPresetRules, hparse]
    rw [if_pos hmem, presetRule_eq_none p kid hp]
  all_goals
    simp only [processPresetRules, hparse]
    rw [if_pos hmem]
    rfl

/-- C8 witness: an unknown preset name fails with the listing error and a
valid name builds its rule, for a concrete one-key document. -/
theorem c8_preset_dispatch_witness :
    processPresetRules [⟨1, "c"⟩] [("00000000000000000000000000000001", "bogus")] [] =
      .error (.parserError
        "Invalid preset rule. Allowed values are: audio, video, video_sd, video_hd, video_uhd1, video_uhd2") ∧
    processPresetRules [⟨1, "c"⟩] [("00000000000000000000000000000001", "video_hd")] [] =
      processPresetRules [⟨1, "c"⟩] [] ([] ++ [HDVideoUsageRule 1]) :=
  ⟨(c8_preset_dispatch [⟨1, "c"⟩] "00000000000000000000000000000001" 1 [] []
      rfl (by decide)).1 "bogus" (by decide),
   (c8_preset_dispatch [⟨1, "c"⟩] "00000000000000000000000000000001" 1 [] []
      rfl (by decide)).2.2.2.2.1⟩

/-- C10: with both DRM systems enabled, the DRM-system list is the Widevine
entries followed by the PlayReady entries, one entry per key in key order;
each system's PSSH is the base64 encoding of a single payload generated
over the full key-id list, byte-identical across all of that system's
entries. -/
theorem c10_drm_entries (args : Args) (keys : List ContentKey)
    (hw : args.widevine = true) (hp : args.playready = true) :
    ∃ w p : String,
      buildDrmSystems args keys =
        keys.map (fun key => DRMSystem.mk key.kid WIDEVINE_SYSTEM_ID w) ++
        keys.map (fun key => DRMSystem.mk key.kid PLAYREADY_SYSTEM_ID p) ∧
      w = b64encode (widevineGeneratePssh (keys.map (fun key => key.kid))
            args.widevine_provider args.widevine_content_id
            args.widevine_pssh_version) ∧
      p = b64encode (playreadyGeneratePssh
            (keys.map (fun key => (key.kid, b16encode ((b64decode key.cek).getD []))))
            (args.playready_la_url.getD "") args.playready_algorithm
            args.playready_pssh_version) ∧
      (buildDrmSystems args keys).length = 2 * keys.length := by
  refine ⟨_, _, ?_, rfl, rfl, ?_⟩
  · unfold buildDrmSystems
    rw [hw, hp]
    simp
  · unfold buildDrmSystems
    rw [hw, hp]
    simp
    omega

/-- C10 witness: a concrete one-key invocation with both systems enabled. -/
theorem c10_drm_entries_witness :
    (⟨[], true, none, none, 1, true, some "https://pr.example.com/rightsmanager.asmx",
        "AESCTR", 1, [], [], true, none⟩ : Args).widevine = true ∧
    (⟨[], true, none, none, 1, true, some "https://pr.example.com/rightsmanager.asmx",
        "AESCTR", 1, [], [], true, none⟩ : Args).playready = true ∧
    (∃ w p : String,
      buildDrmSystems
          (⟨[], true, none, none, 1, true,
            some "https://pr.example.com/rightsmanager.asmx", "AESCTR", 1, [], [],
            true, none⟩ : Args) [⟨1, "AAAAAAAAAAAAAAAAAAAAAA=="⟩] =
        ([⟨1, "AAAAAAAAAAAAAAAAAAAAAA=="⟩] : List ContentKey).map
          (fun key => DRMSystem.mk key.kid WIDEVINE_SYSTEM_ID w) ++
        ([⟨1, "AAAAAAAAAAAAAAAAAAAAAA=="⟩] : List ContentKey).map
          (fun key => DRMSystem.mk key.kid PLAYREADY_SYSTEM_ID p) ∧
      w = b64encode (widevineGeneratePssh
            (([⟨1, "AAAAAAAAAAAAAAAAAAAAAA=="⟩] : List ContentKey).map
              (fun key => key.kid))
            (⟨[], true, none, none, 1, true,
              some "https://pr.example.com/rightsmanager.asmx", "AESCTR", 1, [], [],
              true, none⟩ : Args).widevine_provider
            (⟨[], true, none, none, 1, true,
              some "https://pr.example.com/rightsmanager.asmx", "AESCTR", 1, [], [],
              true, none⟩ : Args).widevine_content_id
            (⟨[], true, none, none, 1, true,
              some "https://pr.example.com/rightsmanager.asmx", "AESCTR", 1, [], [],
              true, none⟩ : Args).widevine_pssh_version) ∧
      p = b64encode (playreadyGeneratePssh
            (([⟨1, "AAAAAAAAAAAAAAAAAAAAAA=="⟩] : List ContentKey).map
              (fun key => (key.kid, b16encode ((b64decode key.cek).getD []))))
            ((⟨[], true, none, none, 1, true,
              some "https://pr.example.com/rightsmanager.asmx", "AESCTR", 1, [], [],
              true, none⟩ : Args).playready_la_url.getD "")
            (⟨[], true, none, none, 1, true,
              some "https://pr.example.com/rightsmanager.asmx", "AESCTR", 1, [], [],
              true, none⟩ : Args).playready_algorithm
            (⟨[], true, none, none, 1, true,
              some "https://pr.example.com/rightsmanager.asmx", "AESCTR", 1, [], [],
              true, none⟩ : Args).playready_pssh_version) ∧
      (buildDrmSystems
          (⟨[], true, none, none, 1, true,
            some "https://pr.example.com/rightsmanager.asmx", "AESCTR", 1, [], [],
            true, none⟩ : Args) [⟨1, "AAAAAAAAAAAAAAAAAAAAAA=="⟩]).length =
        2 * ([⟨1, "AAAAAAAAAAAAAAAAAAAAAA=="⟩] : List ContentKey).length) :=
  ⟨rfl, rfl, c10_drm_entries _ _ rfl rfl⟩

/-- C4 (code bug): on the documented custom rule string the filter loop
completes without error but leaves the filter dictionary empty, and the
custom usage-rule loop appends no usage rule at all — the branch is
unfinished — whereas the module docstring and the spec say it should
produce a VideoFilter with `minPixels=0` and `maxPixels=442368` together
with a BitrateFilter with `maxBitrate=500000`. -/
theorem c4_custom_rule_unfinished :
    processFilters []
      (pySplit ',' "video:min_pixels=0,video:max_pixels=442368,bitrate:max_bitrate=500000") =
      .ok [] ∧
    processCustomRules [⟨1, "AAAAAAAAAAAAAAAAAAAAAA=="⟩]
      [("00000000000000000000000000000001",
        "video:min_pixels=0,video:max_pixels=442368,bitrate:max_bitrate=500000")] [] =
      .ok [] ∧
    ([RuleFilter.video (some 0) (some 442368), RuleFilter.bitrate none (some 500000)] :
      List RuleFilter) ≠ [] :=
  ⟨rfl, rfl, by decide⟩

/-- C1 (code bug): the end-to-end run with two valid keys, Widevine enabled,
a `video_hd` preset rule on the first key and a custom `audio` rule on the
second key crashes with an unhandled `ValueError` in the unfinished
custom-rule branch (the token `audio` has no colon to split on); with the
custom rule removed the same run ends at the unconditional `exit(0)`, so in
neither case is any CpixDocument assembled. -/
theorem c1_end_to_end_crashes :
    mainRun
      ⟨["E82F184C3AAA57B4ACE8606B5E3FEBAD:C2FAF66E2852CC4C4A751F0A2A941FDB",
        "089D84CBEC004A2C9E26B913E39AE3BF:7365B58E3FE44D7FB09089E1E8F2B4A5"],
       true, none, none, 1, false, none, "AESCTR", 1,
       [("089D84CBEC004A2C9E26B913E39AE3BF", "audio")],
       [("E82F184C3AAA57B4ACE8606B5E3FEBAD", "video_hd")],
       true, none⟩ =
      Outcome.crash "ValueError: not enough values to unpack (expected 2, got 1)" ∧
    mainRun
      ⟨["E82F184C3AAA57B4ACE8606B5E3FEBAD:C2FAF66E2852CC4C4A751F0A2A941FDB",
        "089D84CBEC004A2C9E26B913E39AE3BF:7365B58E3FE44D7FB09089E1E8F2B4A5"],
       true, none, none, 1, false, none, "AESCTR", 1,
       [],
       [("E82F184C3AAA57B4ACE8606B5E3FEBAD", "video_hd")],
       true, none⟩ =
      Outcome.exit0 :=
  ⟨rfl, rfl⟩
